import Mathlib

/-!
Verification development for the spreadsheet-to-resume generator
(`resume_generator.py`).  The Python module is shallowly embedded:

* spreadsheet cell values become the inductive `CellValue`;
* a worksheet is a total function from (row, column) to `CellValue`
  (openpyxl's `ws.cell(r, c).value`, which never fails on a loaded sheet);
* a workbook maps sheet names to `Option Sheet`; `wb[name]` on an absent
  sheet is the one reachable failure and is modelled in `Except String`;
* Python string helpers (`strip`, `upper`, `split`, `replace`, `int(...)`,
  `str(...)`) are re-implemented on `List Char` so that every definition
  evaluates inside the kernel;
* the python-docx document is modelled as the list of appended paragraphs,
  each a list of styled runs, keeping alignment and list-item status;
* the CloudConvert call is modelled by its outcome alphabet, and the
  filesystem writes by boolean fields of the result record.
-/

namespace ResumeSpec

/-- Python `str.strip()` on the character list (ASCII whitespace). -/
def pyStripList (l : List Char) : List Char :=
  ((l.dropWhile Char.isWhitespace).reverse.dropWhile Char.isWhitespace).reverse

/-- Python `s.strip()`. -/
def pyStrip (s : String) : String := ⟨pyStripList s.data⟩

/-- Python `s.upper()` (ASCII case mapping). -/
def pyUpper (s : String) : String := ⟨s.data.map Char.toUpper⟩

/-- Decimal digit value of a character, if it is one. -/
def digitVal (c : Char) : Option Nat :=
  if '0' ≤ c ∧ c ≤ '9' then some (c.toNat - '0'.toNat) else none

/-- Digits-only string to number; `none` when empty or non-digit. -/
def digitsToNat : List Char → Option Nat
  | [] => none
  | l => l.foldl (fun acc c => match acc, digitVal c with
      | some n, some d => some (n * 10 + d)
      | _, _ => none) (some 0)

/-- Python `int(s)` for a string argument: surrounding whitespace allowed,
one optional sign, at least one decimal digit; `none` models `ValueError`. -/
def pyParseInt (s : String) : Option Int :=
  match pyStripList s.data with
  | [] => none
  | '-' :: rest => (digitsToNat rest).map (fun n => -(n : Int))
  | '+' :: rest => (digitsToNat rest).map (fun n => (n : Int))
  | l => (digitsToNat l).map (fun n => (n : Int))

/-- Decimal digits of a natural number, most significant first
(fuel-structured so it reduces in the kernel). -/
def natToCharsAux : Nat → Nat → List Char → List Char
  | 0, _, acc => acc
  | fuel+1, n, acc =>
    let d := Nat.digitChar (n % 10)
    if n < 10 then d :: acc else natToCharsAux fuel (n / 10) (d :: acc)

/-- Decimal digits of a natural number. -/
def natToChars (n : Nat) : List Char := natToCharsAux (n + 1) n []

/-- Python `str(i)` for an integer. -/
def intToStr : Int → String
  | .ofNat m => ⟨natToChars m⟩
  | .negSucc m => ⟨'-' :: natToChars (m + 1)⟩

/-- Python `s.split()`: split on whitespace runs, dropping empty pieces. -/
def pySplitWsAux : List Char → List Char → List String → List String
  | [], cur, acc => if cur.isEmpty then acc.reverse else (⟨cur.reverse⟩ :: acc).reverse
  | c :: rest, cur, acc =>
    if c.isWhitespace then
      if cur.isEmpty then pySplitWsAux rest [] acc
      else pySplitWsAux rest [] (⟨cur.reverse⟩ :: acc)
    else pySplitWsAux rest (c :: cur) acc

/-- Python `s.split()` with no separator argument. -/
def pySplitWs (s : String) : List String := pySplitWsAux s.data [] []

/-- Python `s.replace(' ', '_')`: a single-character pattern, so a
character-wise map. -/
def pyReplaceSpace (s : String) : String :=
  ⟨s.data.map (fun c => if c = ' ' then '_' else c)⟩

/-- Left-pad a digit list with zeros to width `k` (CPython `strftime`
zero-pads `%Y` to four digits). -/
def padZeros (k : Nat) (ds : List Char) : List Char :=
  List.replicate (k - ds.length) '0' ++ ds

/-- A spreadsheet cell value as openpyxl delivers it with `data_only=True`:
empty, text, integer, or datetime.  A datetime is carried as its month and
year, the only parts any code path reads. -/
inductive CellValue where
  | blank
  | str (s : String)
  | int (n : Int)
  | date (m y : Nat)
  deriving DecidableEq

/-- Rendering of a datetime cell by Python `str(...)`: the date portion of
`YYYY-MM-DD HH:MM:SS`.  The time component is omitted; no code path
inspects the rendering beyond the `"PRESENT"` comparison, which it can
never satisfy, and emptiness, which it never has.  It holds no surrounding
whitespace, so `strip` is the identity on it. -/
def dateStr (m y : Nat) : String :=
  ⟨padZeros 4 (natToChars y) ++ '-' :: padZeros 2 (natToChars m) ++ ['-', '0', '1']⟩

/-- `safe_str`: convert a cell value to a trimmed string; `None` and the
empty string give `""`. -/
def safe_str : CellValue → String
  | .blank => ""
  | .str s => pyStrip s
  | .int n => intToStr n
  | .date m y => dateStr m y

/-- Python truthiness of a raw cell value (`if size:` in `read_defaults`). -/
def truthy : CellValue → Bool
  | .blank => false
  | .str s => s ≠ ""
  | .int n => n ≠ 0
  | .date _ _ => true

/-- Python `int(value)` on a raw cell value; `none` models the raised
`ValueError`/`TypeError`. -/
def pyInt : CellValue → Option Int
  | .blank => none
  | .str s => pyParseInt s
  | .int n => some n
  | .date _ _ => none

/-- `default_include`: `"Yes"` exactly for (trimmed, case-folded) yes/y. -/
def default_include (v : CellValue) : String :=
  if pyUpper (safe_str v) = "YES" ∨ pyUpper (safe_str v) = "Y" then "Yes" else "No"

/-- `default_order`: blank gives 9999, then `int(value)` with 9999 on
failure. -/
def default_order (v : CellValue) : Int :=
  if v = .blank ∨ safe_str v = "" then 9999
  else match pyInt v with
    | some n => n
    | none => 9999

/-- The `bullets` list of `strip_bullet_prefix`, exactly as Python reads the
source file.  The file is double-encoded, so twelve entries are
three-character mojibake strings (written here as explicit code points);
only `"-"` and `"*"` are single characters. -/
def bullets : List String :=
  ["‚Ä¢", "‚óè", "‚óã", "‚ó¶",
   "‚ñ™", "‚ñ´", "‚ñ†", "‚ñ°",
   "-", "*", "‚Üí", "‚áí", "‚ñ∫", "‚ñ∏"]

/-- `strip_bullet_prefix`: trim, then drop the first character when it (as a
one-character string) is a member of `bullets`, and trim again. -/
def strip_bullet_prefix (text : String) : String :=
  if text = "" then text
  else
    match (pyStrip text).data with
    | [] => pyStrip text
    | c :: rest => if String.mk [c] ∈ bullets then pyStrip (String.mk rest) else pyStrip text

/-- `strftime("%b")` month abbreviations. -/
def monthAbbrev : Nat → String
  | 1 => "Jan" | 2 => "Feb" | 3 => "Mar" | 4 => "Apr" | 5 => "May" | 6 => "Jun"
  | 7 => "Jul" | 8 => "Aug" | 9 => "Sep" | 10 => "Oct" | 11 => "Nov" | 12 => "Dec"
  | _ => ""

/-- `strftime("%Y")`: the year, zero-padded to at least four digits. -/
def pad4Str (y : Nat) : String := ⟨padZeros 4 (natToChars y)⟩

/-- `format_date`: literal (case-folded) `PRESENT` becomes `Present`, a
datetime is rendered `"%b %Y"`, anything else passes through `safe_str`. -/
def format_date (v : CellValue) : String :=
  if pyUpper (safe_str v) = "PRESENT" then "Present"
  else match v with
    | .date m y => monthAbbrev m ++ " " ++ pad4Str y
    | _ => safe_str v

/-- Typography of one style category: font name, point size, bold, italic. -/
structure StyleSpec where
  font : String
  size : Int
  bold : Bool
  italic : Bool
  deriving DecidableEq

/-- The mapping from the nine fixed style categories to their `StyleSpec`,
keyed in the source by the display labels of the Defaults sheet. -/
structure StyleDefaults where
  nameCredentials : StyleSpec
  title : StyleSpec
  contactInfo : StyleSpec
  sectionHeaders : StyleSpec
  companySchool : StyleSpec
  dates : StyleSpec
  jobTitleDegree : StyleSpec
  location : StyleSpec
  body : StyleSpec
  deriving DecidableEq

/-- The embedded defaults dictionary at the top of `read_defaults`. -/
def embeddedDefaults : StyleDefaults where
  nameCredentials := { font := "Calibri", size := 20, bold := true, italic := false }
  title := { font := "Calibri", size := 14, bold := true, italic := false }
  contactInfo := { font := "Calibri", size := 10, bold := false, italic := false }
  sectionHeaders := { font := "Calibri", size := 11, bold := true, italic := false }
  companySchool := { font := "Calibri", size := 10, bold := true, italic := false }
  dates := { font := "Calibri", size := 10, bold := false, italic := false }
  jobTitleDegree := { font := "Calibri", size := 10, bold := false, italic := true }
  location := { font := "Calibri", size := 10, bold := false, italic := true }
  body := { font := "Calibri", size := 10, bold := false, italic := false }

/-- Python `field in defaults` / `defaults[field]` by category label. -/
def StyleDefaults.get? (d : StyleDefaults) (field : String) : Option StyleSpec :=
  if field = "Name & Credentials" then some d.nameCredentials
  else if field = "Title" then some d.title
  else if field = "Contact Information" then some d.contactInfo
  else if field = "Section Headers" then some d.sectionHeaders
  else if field = "Company/School Names" then some d.companySchool
  else if field = "Employed/Enrolled Dates" then some d.dates
  else if field = "Job Title/Degree" then some d.jobTitleDegree
  else if field = "Location" then some d.location
  else if field = "Body (Bullets)" then some d.body
  else none

/-- Write back one category by label (`defaults[field] = ...`). -/
def StyleDefaults.set (d : StyleDefaults) (field : String) (v : StyleSpec) : StyleDefaults :=
  if field = "Name & Credentials" then { d with nameCredentials := v }
  else if field = "Title" then { d with title := v }
  else if field = "Contact Information" then { d with contactInfo := v }
  else if field = "Section Headers" then { d with sectionHeaders := v }
  else if field = "Company/School Names" then { d with companySchool := v }
  else if field = "Employed/Enrolled Dates" then { d with dates := v }
  else if field = "Job Title/Degree" then { d with jobTitleDegree := v }
  else if field = "Location" then { d with location := v }
  else if field = "Body (Bullets)" then { d with body := v }
  else d

/-- A worksheet: the total cell grid (1-based row, column). -/
structure Sheet where
  cell : Nat → Nat → CellValue

/-- A workbook: sheet lookup by name (`none` = sheet absent). -/
def Workbook := String → Option Sheet

/-- One row of the overlay loop of `read_defaults`: font replaces when
non-empty, size when truthy and integer-parsable, bold/italic always. -/
def applyDefaultsRow (ws : Sheet) (d : StyleDefaults) (row : Nat) : StyleDefaults :=
  let field := safe_str (ws.cell row 2)
  let font := safe_str (ws.cell row 3)
  let size := ws.cell row 4
  let bold := pyUpper (safe_str (ws.cell row 5))
  let italic := pyUpper (safe_str (ws.cell row 6))
  match d.get? field with
  | none => d
  | some spec =>
    let spec := if font ≠ "" then { spec with font := font } else spec
    let spec := if truthy size then
        match pyInt size with
        | some n => { spec with size := n }
        | none => spec
      else spec
    let spec := { spec with bold := bold = "YES", italic := italic = "YES" }
    d.set field spec

/-- `read_defaults`: start from the embedded defaults and overlay rows 3-11
of the Defaults sheet; an absent sheet yields the defaults untouched. -/
def read_defaults (wb : Workbook) : StyleDefaults :=
  match wb "Defaults" with
  | none => embeddedDefaults
  | some ws => (List.range' 3 9).foldl (applyDefaultsRow ws) embeddedDefaults

/-- Does the character list start with the given pattern? -/
def startsWithList : List Char → List Char → Bool
  | _, [] => true
  | [], _ :: _ => false
  | c :: cs, p :: ps => c = p && startsWithList cs ps

/-- Python `pat in s` for a non-degenerate pattern: some suffix starts
with it. -/
def containsList (l pat : List Char) : Bool :=
  match l with
  | [] => pat.isEmpty
  | _ :: rest => startsWithList l pat || containsList rest pat

/-- Python `s.split(pat)[0]`: the prefix before the first occurrence. -/
def takeUntilPat : List Char → List Char → List Char
  | [], _ => []
  | c :: rest, pat =>
    if startsWithList (c :: rest) pat then [] else c :: takeUntilPat rest pat

/-- `read_custom_section_name`: cell B2, with everything from an
instructional marker onward discarded; empty means no custom name. -/
def read_custom_section_name (ws : Sheet) : Option String :=
  let cn := safe_str (ws.cell 2 2)
  let cn := if containsList cn.data "<----".data
    then pyStrip ⟨takeUntilPat cn.data "<----".data⟩ else cn
  if cn = "" then none else some cn

/-- The hardcoded section order used when the Order sheet is absent. -/
def fallbackOrder : List String :=
  ["Contact_Info", "Summary", "Highlights",
   "Work_Roles", "Education",
   "Licenses_Certifications", "Skills", "Achievements"]

/-- The row scan of `read_section_order`: name from column C, inclusion from
column D, stopping at the first blank name. -/
def scanOrder (ws : Sheet) : List Nat → List String
  | [] => []
  | r :: rs =>
    let sectionName := safe_str (ws.cell r 3)
    if sectionName = "" then []
    else if default_include (ws.cell r 4) = "Yes" then sectionName :: scanOrder ws rs
    else scanOrder ws rs

/-- Rows 2-49 scanned by `read_section_order` (Python `range(2, 50)`). -/
def orderRows : List Nat := List.range' 2 48

/-- `read_section_order`: scan the Order sheet, or fall back to the
hardcoded order when the sheet is absent. -/
def read_section_order (wb : Workbook) : List String :=
  match wb "Order" with
  | none => fallbackOrder
  | some ws => scanOrder ws orderRows

/-- Rows 4-14 scanned by `read_contact_info` (Python `range(4, 15)`). -/
def contactRows : List Nat := List.range' 4 11

/-- `read_contact_info`: field name from column B, value from column C,
inclusion from column D; rows with flag Yes and non-empty value populate
the mapping, later rows overwriting earlier ones of the same field. -/
def read_contact_info (ws : Sheet) : String → Option String :=
  contactRows.foldl (fun contact row =>
    let field := safe_str (ws.cell row 2)
    let value := safe_str (ws.cell row 3)
    if default_include (ws.cell row 4) = "Yes" ∧ value ≠ "" then
      fun k => if k = field then some value else contact k
    else contact) (fun _ => none)

/-- `read_summary`: text of B5 when the D3 inclusion flag is Yes and the
text is non-empty. -/
def read_summary (ws : Sheet) : Option String :=
  let txt := safe_str (ws.cell 5 2)
  if default_include (ws.cell 3 4) = "Yes" ∧ txt ≠ "" then some txt else none

/-- A work role record as `read_work_roles` builds it. -/
structure WorkRole where
  company : String
  title : String
  start_date : String
  end_date : String
  location : String
  deriving DecidableEq

/-- The row scan of `read_work_roles`: stop at the first blank company,
keep rows whose column-G flag is Yes. -/
def scanRoles (ws : Sheet) : List Nat → List WorkRole
  | [] => []
  | r :: rs =>
    let company := safe_str (ws.cell r 2)
    if company = "" then []
    else if default_include (ws.cell r 7) = "Yes" then
      { company := company,
        title := safe_str (ws.cell r 3),
        start_date := format_date (ws.cell r 4),
        end_date := format_date (ws.cell r 5),
        location := safe_str (ws.cell r 6) } :: scanRoles ws rs
    else scanRoles ws rs

/-- `read_work_roles` over rows 4-100 (Python `range(4, 101)`). -/
def read_work_roles (ws : Sheet) : List WorkRole := scanRoles ws (List.range' 4 97)

/-- Stable insertion of an (order, text) pair: the new element goes after
every element whose order key does not exceed its own. -/
def insertByOrder (x : Int × String) : List (Int × String) → List (Int × String)
  | [] => [x]
  | y :: ys => if y.1 ≤ x.1 then y :: insertByOrder x ys else x :: y :: ys

/-- Python's stable `list.sort(key=lambda x: x[0])`. -/
def sortStable (l : List (Int × String)) : List (Int × String) :=
  l.foldl (fun acc x => insertByOrder x acc) []

/-- Rows 4-200 scanned by the bullet readers (Python `range(4, 201)`). -/
def bulletRows : List Nat := List.range' 4 197

/-- The collection pass of `read_work_experience`: every row (no early
stop) whose column-B company matches exactly, has flag Yes and non-empty
text, contributes its order value and glyph-stripped text. -/
def collectCompanyBullets (ws : Sheet) (company : String) : List (Int × String) :=
  bulletRows.filterMap (fun r =>
    if safe_str (ws.cell r 2) ≠ company then none
    else
      let bullet_text := safe_str (ws.cell r 3)
      if default_include (ws.cell r 4) = "Yes" ∧ bullet_text ≠ "" then
        some (default_order (ws.cell r 5), strip_bullet_prefix bullet_text)
      else none)

/-- `read_work_experience`: per-company bullets, sorted stably by order. -/
def read_work_experience (ws : Sheet) (company : String) : List String :=
  (sortStable (collectCompanyBullets ws company)).map Prod.snd

/-- The collection pass of `read_bullet_section`: text from column B,
inclusion from C, order from D, stopping at the first blank text.  The text
is stored as `safe_str` delivers it - no bullet-glyph stripping here. -/
def collectBullets (ws : Sheet) : List Nat → List (Int × String)
  | [] => []
  | r :: rs =>
    let bullet_text := safe_str (ws.cell r 2)
    if bullet_text = "" then []
    else if default_include (ws.cell r 3) = "Yes" then
      (default_order (ws.cell r 4), bullet_text) :: collectBullets ws rs
    else collectBullets ws rs

/-- `read_bullet_section`: generic bullet list, sorted stably by order. -/
def read_bullet_section (ws : Sheet) : List String :=
  (sortStable (collectBullets ws bulletRows)).map Prod.snd

/-- An education record as `read_education` builds it. -/
structure EducationRecord where
  school : String
  degree : String
  major : String
  end_date : String
  location : String
  graduated : String
  deriving DecidableEq

/-- The row scan of `read_education`: stop at the first blank school; no
inclusion filter. -/
def scanEducation (ws : Sheet) : List Nat → List EducationRecord
  | [] => []
  | r :: rs =>
    let school := safe_str (ws.cell r 2)
    if school = "" then []
    else { school := school,
           degree := safe_str (ws.cell r 3),
           major := safe_str (ws.cell r 4),
           end_date := format_date (ws.cell r 6),
           location := safe_str (ws.cell r 7),
           graduated := safe_str (ws.cell r 8) } :: scanEducation ws rs

/-- `read_education` over rows 4-50 (Python `range(4, 51)`). -/
def read_education (ws : Sheet) : List EducationRecord :=
  scanEducation ws (List.range' 4 47)

/-- `read_skills`: one category column over rows 4-50 (no early stop),
flag in the next column, order in the one after, sorted stably. -/
def read_skills (ws : Sheet) (colIdx : Nat) : List String :=
  (sortStable ((List.range' 4 47).filterMap (fun r =>
    let skill := safe_str (ws.cell r colIdx)
    if default_include (ws.cell r (colIdx + 1)) = "Yes" ∧ skill ≠ "" then
      some (default_order (ws.cell r (colIdx + 2)), skill)
    else none))).map Prod.snd

/-- A named skill category with its ordered skills. -/
structure SkillCategory where
  name : String
  skills : List String
  deriving DecidableEq

/-- The category collection of `build_skills`: columns B, F, J, N; a
category needs a non-empty name in row 3 and at least one qualifying
skill. -/
def collectSkillCategories (ws : Sheet) : List SkillCategory :=
  [2, 6, 10, 14].filterMap (fun colIdx =>
    let categoryName := safe_str (ws.cell 3 colIdx)
    if categoryName = "" then none
    else
      let skills := read_skills ws colIdx
      if skills ≠ [] then some { name := categoryName, skills := skills } else none)

/-- One formatted run of a paragraph. -/
structure TextRun where
  text : String
  font : String
  size : Int
  bold : Bool
  italic : Bool
  deriving DecidableEq

/-- One appended paragraph of the document model. -/
structure Para where
  runs : List TextRun
  centered : Bool
  isListBullet : Bool
  deriving DecidableEq

/-- A run carrying a style category's font, size, bold, italic. -/
def mkRun (text : String) (spec : StyleSpec) : TextRun :=
  { text := text, font := spec.font, size := spec.size,
    bold := spec.bold, italic := spec.italic }

/-- `custom_name if custom_name else default`: Python truthiness on the
optional custom title. -/
def resolveName (customName : Option String) (dflt : String) : String :=
  match customName with
  | some c => if c = "" then dflt else c
  | none => dflt

/-- The centered, upper-cased section header paragraph. -/
def sectionHeaderPara (title : String) (d : StyleDefaults) : Para :=
  { runs := [mkRun (pyUpper title) d.sectionHeaders], centered := true, isListBullet := false }

/-- A body-styled list-bullet paragraph. -/
def bulletPara (text : String) (d : StyleDefaults) : Para :=
  { runs := [mkRun text d.body], centered := false, isListBullet := true }

/-- `build_contact_header`: the name line is appended unconditionally; the
title line and the pipe-joined contact line only when they have content. -/
def build_contact_header (contact : String → Option String) (d : StyleDefaults) : List Para :=
  let nameLine := (contact "Name").getD "" ++
    (match contact "Credentials" with
     | some c => ", " ++ c
     | none => "")
  let line1 : Para := { runs := [mkRun nameLine d.nameCredentials],
                        centered := true, isListBullet := false }
  let line2 : List Para :=
    match contact "Title" with
    | some t => [{ runs := [mkRun t d.title], centered := true, isListBullet := false }]
    | none => []
  let contactParts := ["Email", "Phone", "LinkedIn", "Website"].filterMap contact
  let locationParts := ["City", "State", "Country"].filterMap contact
  let contactParts := if locationParts ≠ [] then
      contactParts ++ [String.intercalate ", " locationParts]
    else contactParts
  let line3 : List Para := if contactParts ≠ [] then
      [{ runs := [mkRun (String.intercalate " | " contactParts) d.contactInfo],
         centered := true, isListBullet := false }]
    else []
  line1 :: (line2 ++ line3)

/-- `build_summary`: header plus one body paragraph; nothing when the
summary text is absent or empty. -/
def build_summary (summary : Option String) (d : StyleDefaults)
    (customName : Option String) : List Para :=
  match summary with
  | none => []
  | some txt =>
    if txt = "" then []
    else [sectionHeaderPara (resolveName customName "Professional Summary") d,
          { runs := [mkRun txt d.body], centered := false, isListBullet := false }]

/-- `build_bullet_section`: header plus one list paragraph per bullet;
nothing when the list is empty. -/
def build_bullet_section (title : String) (bulletList : List String)
    (d : StyleDefaults) : List Para :=
  if bulletList = [] then []
  else sectionHeaderPara title d :: bulletList.map (fun b => bulletPara b d)

/-- Company/date row of one work role (tab-separated right-aligned date). -/
def rolePara1 (role : WorkRole) (d : StyleDefaults) : Para :=
  { runs := [mkRun role.company d.companySchool,
             mkRun ("\t" ++ role.start_date ++ " - " ++ role.end_date) d.dates],
    centered := false, isListBullet := false }

/-- Title/location row of one work role; the location run only when the
location is non-empty. -/
def rolePara2 (role : WorkRole) (d : StyleDefaults) : Para :=
  { runs := mkRun role.title d.jobTitleDegree ::
      (if role.location ≠ "" then [mkRun ("\t" ++ role.location) d.location] else []),
    centered := false, isListBullet := false }

/-- The empty spacer paragraph inserted between roles. -/
def spacerPara : Para := { runs := [], centered := false, isListBullet := false }

/-- `build_work_experience`: header, then per role its two rows and its
company-matched bullets from the Work_Experience sheet, with a spacer after
every role that does not equal the last one (Python compares records by
value); nothing when the role list is empty. -/
def build_work_experience (roles : List WorkRole) (workExpWs : Sheet)
    (d : StyleDefaults) (customName : Option String) : List Para :=
  if roles = [] then []
  else
    sectionHeaderPara (resolveName customName "PROFESSIONAL EXPERIENCE") d ::
    (roles.map (fun role =>
      [rolePara1 role d, rolePara2 role d] ++
      (read_work_experience workExpWs role.company).map (fun b => bulletPara b d) ++
      (if role = roles.getLastD role then [] else [spacerPara]))).flatten

/-- The right-aligned date text of one education row. -/
def eduDateText (edu : EducationRecord) : String :=
  if pyUpper edu.graduated = "YES" then "Graduated " ++ edu.end_date
  else if pyUpper edu.graduated = "NO" then
    (if edu.end_date ≠ "" then "Anticipated " ++ edu.end_date else "In Progress")
  else edu.end_date

/-- School/date row of one education record; the date run only when the
date text is non-empty. -/
def eduPara1 (edu : EducationRecord) (d : StyleDefaults) : Para :=
  { runs := mkRun edu.school d.companySchool ::
      (if eduDateText edu ≠ "" then [mkRun ("\t" ++ eduDateText edu) d.dates] else []),
    centered := false, isListBullet := false }

/-- Degree/location row of one education record. -/
def eduPara2 (edu : EducationRecord) (d : StyleDefaults) : Para :=
  let degreeText := edu.degree ++ (if edu.major ≠ "" then ", " ++ edu.major else "")
  { runs := mkRun degreeText d.jobTitleDegree ::
      (if edu.location ≠ "" then [mkRun ("\t" ++ edu.location) d.location] else []),
    centered := false, isListBullet := false }

/-- `build_education`: header then two rows per record; nothing when the
record list is empty. -/
def build_education (education : List EducationRecord) (d : StyleDefaults)
    (customName : Option String) : List Para :=
  if education = [] then []
  else sectionHeaderPara (resolveName customName "EDUCATION") d ::
    (education.map (fun e => [eduPara1 e d, eduPara2 e d])).flatten

/-- One `Category: skill, skill` line (bold category name). -/
def skillPara (cat : SkillCategory) (d : StyleDefaults) : Para :=
  { runs := [{ mkRun (cat.name ++ ": ") d.body with bold := true },
             mkRun (String.intercalate ", " cat.skills) d.body],
    centered := false, isListBullet := false }

/-- `build_skills`: header then one line per category; nothing when no
category qualifies. -/
def build_skills (ws : Sheet) (d : StyleDefaults) (customName : Option String) : List Para :=
  let categories := collectSkillCategories ws
  if categories = [] then []
  else sectionHeaderPara (resolveName customName "SKILLS") d ::
    categories.map (fun c => skillPara c d)

/-- `wb[name]`: sheet lookup, raising `KeyError` when absent. -/
def getSheet (wb : Workbook) (name : String) : Except String Sheet :=
  match wb name with
  | some ws => .ok ws
  | none => .error ("Worksheet " ++ name ++ " does not exist.")

/-- The guarded optional-sheet read of a bullet section: an absent sheet
yields the empty list. -/
def optionalBullets (wb : Workbook) (sheet : String) : List String :=
  match wb sheet with
  | some ws => read_bullet_section ws
  | none => []

/-- The guarded optional-sheet read of the summary: absent sheet gives
`None`. -/
def summaryData (wb : Workbook) : Option String :=
  match wb "Summary" with
  | some ws => read_summary ws
  | none => none

/-- Display title of a section: the sheet's custom name when the sheet is
present and has one, else the default. -/
def sheetSectionName (wb : Workbook) (sheet : String) (dflt : String) : String :=
  match wb sheet with
  | some ws =>
    match read_custom_section_name ws with
    | some c => c
    | none => dflt
  | none => dflt

/-- Everything `create_resume_from_file` pre-reads before building. -/
structure PreData where
  contact : String → Option String
  summary : Option String
  summary_name : String
  highlights : List String
  highlights_name : String
  achievements : List String
  achievements_name : String
  licenses : List String
  licenses_name : String
  memberships : List String
  memberships_name : String
  awards : List String
  awards_name : String
  projects : List String
  projects_name : String
  custom_section : List String
  custom_section_name : String
  skills_name : String
  work_roles : List WorkRole
  work_roles_name : String
  education : List EducationRecord
  education_name : String

/-- The pre-read phase of `create_resume_from_file`, in source order: the
unguarded accesses `wb['Contact_Info']`, `wb['Work_Roles']` and
`wb['Education']` are the failure points; every other sheet is read only
when present. -/
def preRead (wb : Workbook) : Except String PreData := do
  let contactWs ← getSheet wb "Contact_Info"
  let contact := read_contact_info contactWs
  let workRolesWs ← getSheet wb "Work_Roles"
  let educationWs ← getSheet wb "Education"
  return {
    contact := contact
    summary := summaryData wb
    summary_name := sheetSectionName wb "Summary" "Professional Summary"
    highlights := optionalBullets wb "Highlights"
    highlights_name := sheetSectionName wb "Highlights" "Highlights"
    achievements := optionalBullets wb "Achievements"
    achievements_name := sheetSectionName wb "Achievements" "Achievements"
    licenses := optionalBullets wb "Licenses_Certifications"
    licenses_name := sheetSectionName wb "Licenses_Certifications" "Licenses & Certifications"
    memberships := optionalBullets wb "Memberships"
    memberships_name := sheetSectionName wb "Memberships" "Memberships"
    awards := optionalBullets wb "Awards"
    awards_name := sheetSectionName wb "Awards" "Awards"
    projects := optionalBullets wb "Projects"
    projects_name := sheetSectionName wb "Projects" "Projects"
    custom_section := optionalBullets wb "Custom_Section"
    custom_section_name := sheetSectionName wb "Custom_Section" "Additional Information"
    skills_name := sheetSectionName wb "Skills" "Skills"
    work_roles := read_work_roles workRolesWs
    work_roles_name := sheetSectionName wb "Work_Roles" "Professional Experience"
    education := read_education educationWs
    education_name := sheetSectionName wb "Education" "Education" }

/-- One arm of the build dispatch: the Work_Roles and Skills arms access
`wb['Work_Experience']` and `wb['Skills']` and can raise; an unknown
section name is a no-op. -/
def buildSection (wb : Workbook) (d : StyleDefaults) (data : PreData)
    (sectionName : String) : Except String (List Para) :=
  if sectionName = "Contact_Info" then .ok (build_contact_header data.contact d)
  else if sectionName = "Summary" then
    .ok (build_summary data.summary d (some data.summary_name))
  else if sectionName = "Highlights" then
    .ok (build_bullet_section data.highlights_name data.highlights d)
  else if sectionName = "Work_Roles" then
    match wb "Work_Experience" with
    | some ws => .ok (build_work_experience data.work_roles ws d (some data.work_roles_name))
    | none => .error "Worksheet Work_Experience does not exist."
  else if sectionName = "Education" then
    .ok (build_education data.education d (some data.education_name))
  else if sectionName = "Licenses_Certifications" then
    .ok (build_bullet_section data.licenses_name data.licenses d)
  else if sectionName = "Skills" then
    match wb "Skills" with
    | some ws => .ok (build_skills ws d (some data.skills_name))
    | none => .error "Worksheet Skills does not exist."
  else if sectionName = "Achievements" then
    .ok (build_bullet_section data.achievements_name data.achievements d)
  else if sectionName = "Memberships" then
    .ok (build_bullet_section data.memberships_name data.memberships d)
  else if sectionName = "Awards" then
    .ok (build_bullet_section data.awards_name data.awards d)
  else if sectionName = "Projects" then
    .ok (build_bullet_section data.projects_name data.projects d)
  else if sectionName = "Custom_Section" then
    .ok (build_bullet_section data.custom_section_name data.custom_section d)
  else .ok []

/-- The build loop over the section order, concatenating appended
paragraphs. -/
def buildSections (wb : Workbook) (d : StyleDefaults) (data : PreData) :
    List String → Except String (List Para)
  | [] => .ok []
  | s :: rest => do
    let ps ← buildSection wb d data s
    let rest2 ← buildSections wb d data rest
    return ps ++ rest2

/-- The base-filename heuristic: first and last whitespace token when there
are at least two, else the whole name with spaces replaced by underscores,
else the placeholder. -/
def baseFilename (fullName : String) : String :=
  let nameParts := pySplitWs fullName
  if 2 ≤ nameParts.length then
    nameParts.headD "" ++ "_" ++ nameParts.getLastD ""
  else if fullName ≠ "" then pyReplaceSpace fullName
  else "Resume"

/-- Base filename plus the generation timestamp. -/
def mkFilename (base ts : String) : String := base ++ "_" ++ ts

/-- Outcome alphabet of the CloudConvert exchange: job creation failure,
upload failure, a finished poll, an error poll, or 30 pending polls. -/
inductive ConvOutcome where
  | createJobFail
  | uploadFail
  | finished
  | convError
  | timeout
  deriving DecidableEq

/-- PDF path produced by the conversion block: `None` when the credential
is unset or any step fails, the path only on a finished conversion. -/
def runConversion (apiKey : Option String) (conv : ConvOutcome)
    (pdfPath : String) : Option String :=
  match apiKey with
  | none => none
  | some _ =>
    match conv with
    | .finished => some pdfPath
    | _ => none

/-- The structured result of `create_resume_from_file`, plus two fields
recording the filesystem effects (the DOCX write and the cleanup
deletion) and the document model that was assembled. -/
structure GenResult where
  success : Bool
  name : String
  docx_path : Option String
  pdf_path : Option String
  error : Option String
  docxWritten : Bool
  docxDeleted : Bool
  doc : List Para
  deriving DecidableEq

/-- The tail of `create_resume_from_file` after the build loop: filename
computation, the DOCX save (performed when either format is requested,
recorded in `docxWritten`), the conversion block, the cleanup deletion,
and the final `success = True`. -/
def finishResult (data : PreData) (doc : List Para) (outputDir : String)
    (generate_pdf generate_docx : Bool) (apiKey : Option String)
    (conv : ConvOutcome) (timestamp : String) : GenResult :=
  let fullName := (data.contact "Name").getD "Resume"
  let base := baseFilename fullName
  let filename := mkFilename base timestamp
  let docxPath := outputDir ++ "/" ++ filename ++ ".docx"
  let pdfPath := outputDir ++ "/" ++ filename ++ ".pdf"
  let docxWritten := generate_docx || generate_pdf
  let docx_path := if generate_docx then some docxPath else none
  let pdf_path := if generate_pdf then runConversion apiKey conv pdfPath else none
  let docxDeleted := generate_pdf && pdf_path.isSome && !generate_docx
  { success := true, name := base, docx_path := docx_path,
    pdf_path := pdf_path, error := none, docxWritten := docxWritten,
    docxDeleted := docxDeleted, doc := doc }

/-- The body of `create_resume_from_file` inside its top-level `try`. -/
def createBody (wb : Workbook) (outputDir : String)
    (generate_pdf generate_docx : Bool) (apiKey : Option String)
    (conv : ConvOutcome) (timestamp : String) : Except String GenResult := do
  let d := read_defaults wb
  let sectionOrder := read_section_order wb
  let data ← preRead wb
  let doc ← buildSections wb d data sectionOrder
  return finishResult data doc outputDir generate_pdf generate_docx apiKey conv timestamp

/-- `create_resume_from_file`: the body's exceptions become a failure
result carrying the message (no partial mutation is observable before the
three failure points). -/
def createResumeFromFile (wb : Workbook) (outputDir : String)
    (generate_pdf generate_docx : Bool) (apiKey : Option String)
    (conv : ConvOutcome) (timestamp : String) : GenResult :=
  match createBody wb outputDir generate_pdf generate_docx apiKey conv timestamp with
  | .ok r => r
  | .error e =>
    { success := false, name := "", docx_path := none, pdf_path := none,
      error := some e, docxWritten := false, docxDeleted := false, doc := [] }

/-! Concrete workbooks used by witnesses and counterexamples. -/

/-- A sheet whose cells are all blank. -/
def emptySheet : Sheet := ⟨fun _ _ => .blank⟩

/-- A Contact_Info sheet holding only an included Name row. -/
def contactSheetW : Sheet := ⟨fun r c =>
  if r = 4 ∧ c = 2 then .str "Name"
  else if r = 4 ∧ c = 3 then .str "Jordan Lee"
  else if r = 4 ∧ c = 4 then .str "Yes"
  else .blank⟩

/-- A workbook holding the three sheets the specification calls primary,
and nothing else - in particular no Education sheet. -/
def wbNoEdu : Workbook := fun n =>
  if n = "Contact_Info" then some contactSheetW
  else if n = "Work_Roles" then some emptySheet
  else if n = "Work_Experience" then some emptySheet
  else none

/-- A workbook holding every sheet the code accesses unconditionally or
through the fallback section order. -/
def wbFull : Workbook := fun n =>
  if n = "Contact_Info" then some contactSheetW
  else if n = "Work_Roles" then some emptySheet
  else if n = "Work_Experience" then some emptySheet
  else if n = "Education" then some emptySheet
  else if n = "Skills" then some emptySheet
  else none

/-- A generic bullet sheet whose row 4 text starts with a dash glyph. -/
def sheetC2 : Sheet := ⟨fun r c =>
  if r = 4 ∧ c = 2 then .str "- Led team"
  else if r = 4 ∧ c = 3 then .str "Yes"
  else .blank⟩

/-- An Order sheet naming one section with inclusion flag No. -/
def orderSheetW : Sheet := ⟨fun r c =>
  if r = 2 ∧ c = 3 then .str "Skills"
  else if r = 2 ∧ c = 4 then .str "No"
  else .blank⟩

/-- A workbook whose Order sheet is present but excludes every section. -/
def wbOrderPresent : Workbook := fun n =>
  if n = "Order" then some orderSheetW
  else if n = "Contact_Info" then some contactSheetW
  else if n = "Work_Roles" then some emptySheet
  else if n = "Education" then some emptySheet
  else none

/-! Support lemmas. -/

lemma natToCharsAux_length (fuel : Nat) : ∀ (n : Nat) (acc : List Char),
    acc.length ≤ (natToCharsAux fuel n acc).length := by
  induction fuel with
  | zero => intro n acc; simp [natToCharsAux]
  | succ f ih =>
    intro n acc
    simp only [natToCharsAux]
    split
    · simp
    · exact le_trans (by simp) (ih (n / 10) _)

lemma natToChars_length_pos (n : Nat) : 0 < (natToChars n).length := by
  simp only [natToChars, natToCharsAux]
  split
  · simp
  · exact lt_of_lt_of_le (by simp) (natToCharsAux_length n (n / 10) _)

lemma intToStr_ne_empty (n : Int) : intToStr n ≠ "" := by
  intro h
  have hd : (intToStr n).data = [] := by rw [h]
  cases n with
  | ofNat m =>
    simp only [intToStr] at hd
    exact absurd hd (List.ne_nil_of_length_pos (natToChars_length_pos m))
  | negSucc m =>
    simp only [intToStr] at hd
    exact absurd hd (by simp)

lemma pyUpper_length (s : String) : (pyUpper s).length = s.length := by
  show (s.data.map Char.toUpper).length = s.data.length
  exact List.length_map _ _

lemma dateStr_length (m y : Nat) : 7 < (dateStr m y).length := by
  show 7 < (padZeros 4 (natToChars y) ++ '-' :: padZeros 2 (natToChars m) ++ ['-', '0', '1']).length
  simp only [padZeros, List.length_append, List.length_replicate, List.length_cons]
  omega

lemma dateStr_ne_empty (m y : Nat) : dateStr m y ≠ "" := by
  intro h
  have := congrArg String.length h
  have h2 := dateStr_length m y
  have h3 : ("" : String).length = 0 := rfl
  omega

lemma dateStr_not_present (m y : Nat) : pyUpper (dateStr m y) ≠ "PRESENT" := by
  intro h
  have hl := congrArg String.length h
  rw [pyUpper_length] at hl
  have h2 := dateStr_length m y
  have h3 : ("PRESENT" : String).length = 7 := rfl
  omega

lemma mem_insertByOrder (x z : Int × String) : ∀ l, z ∈ insertByOrder x l ↔ z = x ∨ z ∈ l := by
  intro l
  induction l with
  | nil => simp [insertByOrder]
  | cons y ys ih =>
    simp only [insertByOrder]
    split
    · simp only [List.mem_cons, ih]
      tauto
    · simp [List.mem_cons]

lemma insertByOrder_pairwise (x : Int × String) :
    ∀ l : List (Int × String), l.Pairwise (fun a b => a.1 ≤ b.1) →
      (insertByOrder x l).Pairwise (fun a b => a.1 ≤ b.1) := by
  intro l
  induction l with
  | nil => intro _; simp [insertByOrder]
  | cons y ys ih =>
    intro h
    rw [List.pairwise_cons] at h
    obtain ⟨hy, hys⟩ := h
    simp only [insertByOrder]
    split
    case isTrue hle =>
      rw [List.pairwise_cons]
      refine ⟨?_, ih hys⟩
      intro z hz
      rcases (mem_insertByOrder x z ys).mp hz with rfl | hzys
      · exact hle
      · exact hy z hzys
    case isFalse hlt =>
      rw [List.pairwise_cons]
      refine ⟨?_, List.pairwise_cons.mpr ⟨hy, hys⟩⟩
      intro z hz
      rcases List.mem_cons.mp hz with rfl | hzys
      · exact le_of_lt (lt_of_not_le hlt)
      · exact le_trans (le_of_lt (lt_of_not_le hlt)) (hy z hzys)

lemma filter_insertByOrder (x : Int × String) (k : Int) :
    ∀ l : List (Int × String), l.Pairwise (fun a b => a.1 ≤ b.1) →
      (insertByOrder x l).filter (fun p => p.1 == k) =
        l.filter (fun p => p.1 == k) ++ (if x.1 == k then [x] else []) := by
  intro l
  induction l with
  | nil =>
    intro _
    simp [insertByOrder, List.filter_cons]
  | cons y ys ih =>
    intro h
    rw [List.pairwise_cons] at h
    obtain ⟨hy, hys⟩ := h
    simp only [insertByOrder]
    split
    case isTrue hle =>
      rw [List.filter_cons, List.filter_cons, ih hys]
      by_cases hyk : (y.1 == k) = true
      · simp [hyk]
      · simp [hyk]
    case isFalse hlt =>
      rw [List.filter_cons]
      by_cases hxk : (x.1 == k) = true
      · have hk : x.1 = k := by simpa using hxk
        have hnil : (y :: ys).filter (fun p => p.1 == k) = [] := by
          rw [List.filter_eq_nil_iff]
          intro z hz
          have hzge : y.1 ≤ z.1 := by
            rcases List.mem_cons.mp hz with rfl | hzys
            · exact le_refl _
            · exact hy z hzys
          have : k < z.1 := lt_of_lt_of_le (hk ▸ lt_of_not_le hlt) hzge
          simp only [beq_iff_eq]
          omega
        simp [hxk, hnil]
      · simp [hxk]

lemma sortStable_go_pairwise :
    ∀ (l acc : List (Int × String)), acc.Pairwise (fun a b => a.1 ≤ b.1) →
      (l.foldl (fun acc x => insertByOrder x acc) acc).Pairwise (fun a b => a.1 ≤ b.1) := by
  intro l
  induction l with
  | nil => intro acc h; simpa using h
  | cons x xs ih =>
    intro acc h
    rw [List.foldl_cons]
    exact ih _ (insertByOrder_pairwise x acc h)

lemma sortStable_pairwise (l : List (Int × String)) :
    (sortStable l).Pairwise (fun a b => a.1 ≤ b.1) :=
  sortStable_go_pairwise l [] (by simp)

lemma sortStable_go_filter (k : Int) :
    ∀ (l acc : List (Int × String)), acc.Pairwise (fun a b => a.1 ≤ b.1) →
      (l.foldl (fun acc x => insertByOrder x acc) acc).filter (fun p => p.1 == k) =
        acc.filter (fun p => p.1 == k) ++ l.filter (fun p => p.1 == k) := by
  intro l
  induction l with
  | nil => intro acc h; simp
  | cons x xs ih =>
    intro acc h
    rw [List.foldl_cons, ih _ (insertByOrder_pairwise x acc h),
      filter_insertByOrder x k acc h, List.filter_cons, List.append_assoc]
    by_cases hxk : (x.1 == k) = true
    · simp [hxk]
    · simp [hxk]

lemma sortStable_filter (l : List (Int × String)) (k : Int) :
    (sortStable l).filter (fun p => p.1 == k) = l.filter (fun p => p.1 == k) := by
  simpa using sortStable_go_filter k l [] (by simp)

lemma scanOrder_eq (ws : Sheet) : ∀ rows : List Nat,
    scanOrder ws rows =
      ((rows.map (fun r => (safe_str (ws.cell r 3), default_include (ws.cell r 4)))).takeWhile
          (fun p => p.1 != "")).filterMap
        (fun p => if p.2 = "Yes" then some p.1 else none) := by
  intro rows
  induction rows with
  | nil => rfl
  | cons r rs ih =>
    simp only [scanOrder, List.map_cons, List.takeWhile_cons]
    by_cases h1 : safe_str (ws.cell r 3) = ""
    · simp [h1]
    · by_cases h2 : default_include (ws.cell r 4) = "Yes"
      · simp [h1, h2, ih, List.filterMap_cons]
      · simp [h1, h2, ih, List.filterMap_cons]

lemma collectCompanyBullets_mem (ws : Sheet) (company : String) (ot : Int × String)
    (h : ot ∈ collectCompanyBullets ws company) :
    ∃ r ∈ bulletRows,
      ot = (default_order (ws.cell r 5), strip_bullet_prefix (safe_str (ws.cell r 3))) := by
  simp only [collectCompanyBullets, List.mem_filterMap] at h
  obtain ⟨r, hr, hf⟩ := h
  refine ⟨r, hr, ?_⟩
  split at hf
  · exact absurd hf (by simp)
  · split at hf
    · exact (Option.some_inj.mp hf).symm
    · exact absurd hf (by simp)

lemma collectBullets_mem (ws : Sheet) : ∀ (rows : List Nat) (ot : Int × String),
    ot ∈ collectBullets ws rows →
      ∃ r ∈ rows, ot = (default_order (ws.cell r 4), safe_str (ws.cell r 2)) := by
  intro rows
  induction rows with
  | nil => intro ot h; simp [collectBullets] at h
  | cons r rs ih =>
    intro ot h
    simp only [collectBullets] at h
    split at h
    · simp at h
    · split at h
      · rcases List.mem_cons.mp h with rfl | hm
        · exact ⟨r, by simp, rfl⟩
        · obtain ⟨r2, hr2, he⟩ := ih ot hm
          exact ⟨r2, by simp [hr2], he⟩
      · obtain ⟨r2, hr2, he⟩ := ih ot h
        exact ⟨r2, by simp [hr2], he⟩

lemma charString_mem_bullets (c : Char) :
    String.mk [c] ∈ bullets ↔ c = '-' ∨ c = '*' := by
  constructor
  · intro h
    have hsel : ∀ b ∈ bullets, b.data.length = 1 → b = "-" ∨ b = "*" := by decide
    have hlen : (String.mk [c]).data.length = 1 := rfl
    rcases hsel _ h hlen with hb | hb
    · left
      have hd : [c] = ['-'] := congrArg String.data hb
      simpa using hd
    · right
      have hd : [c] = ['*'] := congrArg String.data hb
      simpa using hd
  · rintro (rfl | rfl)
    · decide
    · decide

lemma preRead_ok (wb : Workbook) (cs ws es : Sheet)
    (hc : wb "Contact_Info" = some cs) (hw : wb "Work_Roles" = some ws)
    (he : wb "Education" = some es) :
    ∃ data, preRead wb = Except.ok data := by
  unfold preRead getSheet
  rw [hc, hw, he]
  exact ⟨_, rfl⟩

lemma buildSection_isOk (wb : Workbook) (d : StyleDefaults) (data : PreData) (s : String)
    (hwe : s = "Work_Roles" → (wb "Work_Experience").isSome = true)
    (hsk : s = "Skills" → (wb "Skills").isSome = true) :
    (buildSection wb d data s).isOk = true := by
  by_cases h4 : s = "Work_Roles"
  · subst h4
    obtain ⟨ws, hws⟩ := Option.isSome_iff_exists.mp (hwe rfl)
    unfold buildSection
    rw [hws]
    rfl
  · by_cases h7 : s = "Skills"
    · subst h7
      obtain ⟨ws, hws⟩ := Option.isSome_iff_exists.mp (hsk rfl)
      unfold buildSection
      rw [hws]
      rfl
    · unfold buildSection
      repeat' split
      all_goals rfl

lemma buildSection_ok (wb : Workbook) (d : StyleDefaults) (data : PreData) (s : String)
    (hwe : s = "Work_Roles" → (wb "Work_Experience").isSome = true)
    (hsk : s = "Skills" → (wb "Skills").isSome = true) :
    ∃ ps, buildSection wb d data s = Except.ok ps := by
  have h := buildSection_isOk wb d data s hwe hsk
  cases hbs : buildSection wb d data s with
  | ok ps => exact ⟨ps, rfl⟩
  | error e => rw [hbs] at h; simp [Except.isOk, Except.toBool] at h

lemma buildSections_ok (wb : Workbook) (d : StyleDefaults) (data : PreData) :
    ∀ l : List String,
      (∀ s ∈ l, s = "Work_Roles" → (wb "Work_Experience").isSome = true) →
      (∀ s ∈ l, s = "Skills" → (wb "Skills").isSome = true) →
      ∃ ps, buildSections wb d data l = Except.ok ps := by
  intro l
  induction l with
  | nil => intro _ _; exact ⟨[], rfl⟩
  | cons s rest ih =>
    intro hwe hsk
    obtain ⟨ps, hps⟩ := buildSection_ok wb d data s (hwe s (by simp)) (hsk s (by simp))
    obtain ⟨rest2, hrest⟩ := ih (fun t ht => hwe t (by simp [ht])) (fun t ht => hsk t (by simp [ht]))
    refine ⟨ps ++ rest2, ?_⟩
    simp only [buildSections]
    rw [hps, hrest]
    rfl

lemma createBody_ok (wb : Workbook) (dir : String) (gp gd : Bool) (key : Option String)
    (conv : ConvOutcome) (ts : String)
    (hc : (wb "Contact_Info").isSome = true) (hw : (wb "Work_Roles").isSome = true)
    (he : (wb "Education").isSome = true)
    (hwe : "Work_Roles" ∈ read_section_order wb → (wb "Work_Experience").isSome = true)
    (hsk : "Skills" ∈ read_section_order wb → (wb "Skills").isSome = true) :
    ∃ data doc, createBody wb dir gp gd key conv ts =
      Except.ok (finishResult data doc dir gp gd key conv ts) := by
  obtain ⟨cs, hcs⟩ := Option.isSome_iff_exists.mp hc
  obtain ⟨wsR, hwsR⟩ := Option.isSome_iff_exists.mp hw
  obtain ⟨es, hes⟩ := Option.isSome_iff_exists.mp he
  obtain ⟨data, hdata⟩ := preRead_ok wb cs wsR es hcs hwsR hes
  obtain ⟨doc, hdoc⟩ := buildSections_ok wb (read_defaults wb) data (read_section_order wb)
    (fun s hs heq => hwe (heq ▸ hs)) (fun s hs heq => hsk (heq ▸ hs))
  refine ⟨data, doc, ?_⟩
  unfold createBody
  dsimp only
  rw [hdata]
  show Except.bind (buildSections wb (read_defaults wb) data (read_section_order wb)) _ = _
  rw [hdoc]
  rfl

lemma finishResult_success (data : PreData) (doc : List Para) (dir : String)
    (gp gd : Bool) (key : Option String) (conv : ConvOutcome) (ts : String) :
    (finishResult data doc dir gp gd key conv ts).success = true := rfl

lemma finishResult_docxWritten (data : PreData) (doc : List Para) (dir : String)
    (gp gd : Bool) (key : Option String) (conv : ConvOutcome) (ts : String) :
    (finishResult data doc dir gp gd key conv ts).docxWritten = (gd || gp) := rfl

lemma finishResult_docx_path (data : PreData) (doc : List Para) (dir : String)
    (gp gd : Bool) (key : Option String) (conv : ConvOutcome) (ts : String) :
    (finishResult data doc dir gp gd key conv ts).docx_path.isSome = gd := by
  cases gd <;> rfl

lemma finishResult_pdf_none (data : PreData) (doc : List Para) (dir : String)
    (gp gd : Bool) (conv : ConvOutcome) (ts : String) :
    (finishResult data doc dir gp gd none conv ts).pdf_path = none := by
  cases gp <;> rfl

lemma pyReplaceSpace_id (n : String) (hs : ' ' ∉ n.data) : pyReplaceSpace n = n := by
  have hmap : ∀ l : List Char, ' ' ∉ l →
      l.map (fun c => if c = ' ' then '_' else c) = l := by
    intro l hl
    induction l with
    | nil => rfl
    | cons c cs ih =>
      simp only [List.map_cons]
      rw [if_neg, ih (fun hmem => hl (List.mem_cons_of_mem c hmem))]
      intro hc
      exact hl (hc ▸ List.mem_cons_self c cs)
  exact String.ext_iff.mpr (hmap n.data hs)

/-- C4: when the Defaults sheet is absent, `read_defaults` returns exactly
the embedded nine-category defaults, unchanged and without raising; the
sheet lookup is the one failure point of the read and it is caught before
any overlay happens. -/
theorem C4_read_defaults_fail_open (wb : Workbook) (h : wb "Defaults" = none) :
    read_defaults wb = embeddedDefaults := by
  unfold read_defaults
  rw [h]

/-- C4 witness: a workbook with no sheets at all yields the embedded
defaults. -/
theorem C4_read_defaults_fail_open_witness :
    read_defaults (fun _ => none) = embeddedDefaults :=
  C4_read_defaults_fail_open (fun _ => none) rfl

/-- C5 counterexample: the cell value `" yes "` is not, case-insensitively,
the string yes or y (its uppercase is `" YES"`), yet the flag normalizes to
true, because `safe_str` trims before the comparison. -/
theorem C5_counterexample :
    default_include (.str " yes ") = "Yes" ∧
      pyUpper " yes " ≠ "YES" ∧ pyUpper " yes " ≠ "Y" := by
  refine ⟨by decide, by decide, by decide⟩

/-- C5 (amended): the normalized inclusion flag is true exactly when the
trimmed cell text is, case-insensitively, yes or y; every other value,
blank cells included, normalizes to false. -/
theorem C5_include_iff (v : CellValue) :
    default_include v = "Yes" ↔
      (pyUpper (safe_str v) = "YES" ∨ pyUpper (safe_str v) = "Y") := by
  unfold default_include
  split
  case isTrue h => exact iff_of_true rfl h
  case isFalse h => exact iff_of_false (by decide) h

/-- C6: order parsing is total - blank cells, unparsable strings and
date cells give the sentinel 9999, integer cells and integer-parsable
strings give their value - and the bullet sort is ascending by order and
stable: the sorted list is pairwise ordered on the keys and, for every key,
keeps the original relative order of the rows carrying that key. -/
theorem C6_order_and_sort :
    (default_order CellValue.blank = 9999) ∧
    (∀ s : String, default_order (CellValue.str s) = (pyParseInt s).getD 9999) ∧
    (∀ n : Int, default_order (CellValue.int n) = n) ∧
    (∀ m y : Nat, default_order (CellValue.date m y) = 9999) ∧
    (∀ l : List (Int × String), (sortStable l).Pairwise (fun a b => a.1 ≤ b.1)) ∧
    (∀ (l : List (Int × String)) (k : Int),
      (sortStable l).filter (fun p => p.1 == k) = l.filter (fun p => p.1 == k)) ∧
    (∀ ws : Sheet,
      read_bullet_section ws = (sortStable (collectBullets ws bulletRows)).map Prod.snd) := by
  refine ⟨rfl, ?_, ?_, ?_, sortStable_pairwise, sortStable_filter, fun _ => rfl⟩
  · intro s
    unfold default_order
    by_cases h : safe_str (CellValue.str s) = ""
    · rw [if_pos (Or.inr h)]
      have hd : pyStripList s.data = ([] : List Char) := congrArg String.data h
      have hp : pyParseInt s = none := by
        unfold pyParseInt
        rw [hd]
      rw [hp]
      rfl
    · rw [if_neg]
      · show (match pyInt (CellValue.str s) with
          | some n => n
          | none => 9999) = (pyParseInt s).getD 9999
        cases hp : pyParseInt s with
        | none => simp only [pyInt, hp, Option.getD]
        | some n => simp only [pyInt, hp, Option.getD]
      · rintro (h1 | h2)
        · exact CellValue.noConfusion h1
        · exact h h2
  · intro n
    unfold default_order
    rw [if_neg]
    · rfl
    · rintro (h1 | h2)
      · exact CellValue.noConfusion h1
      · exact intToStr_ne_empty n h2
  · intro m y
    unfold default_order
    rw [if_neg]
    · rfl
    · rintro (h1 | h2)
      · exact CellValue.noConfusion h1
      · exact dateStr_ne_empty m y h2

/-- C7: a date cell whose text is, case-insensitively, `present`
normalizes to `Present`; a proper date value renders as abbreviated month
plus zero-padded four-digit year; any other value passes through as its
trimmed text. -/
theorem C7_format_date (v : CellValue) :
    (pyUpper (safe_str v) = "PRESENT" → format_date v = "Present") ∧
    (∀ m y, v = CellValue.date m y → format_date v = monthAbbrev m ++ " " ++ pad4Str y) ∧
    (pyUpper (safe_str v) ≠ "PRESENT" → (∀ m y, v ≠ CellValue.date m y) →
      format_date v = safe_str v) := by
  refine ⟨?_, ?_, ?_⟩
  · intro h
    unfold format_date
    rw [if_pos h]
  · rintro m y rfl
    unfold format_date
    rw [if_neg (show ¬pyUpper (safe_str (CellValue.date m y)) = "PRESENT" from
      dateStr_not_present m y)]
  · intro h hnd
    unfold format_date
    rw [if_neg h]
    cases v with
    | blank => rfl
    | str s => rfl
    | int n => rfl
    | date m y => exact absurd rfl (hnd m y)

/-- C7 witness: `" present "` normalizes to `Present`; January 2023
renders as `Jan 2023`. -/
theorem C7_format_date_witness :
    pyUpper (safe_str (CellValue.str " present ")) = "PRESENT" ∧
    format_date (CellValue.str " present ") = "Present" ∧
    format_date (CellValue.date 1 2023) = "Jan 2023" := by
  refine ⟨by decide, (C7_format_date (CellValue.str " present ")).1 (by decide), ?_⟩
  rw [(C7_format_date (CellValue.date 1 2023)).2.1 1 2023 rfl]
  decide

/-- C9: the output base filename joins the first and last whitespace
tokens of the contact name with an underscore when there are at least two;
a single-token name (which holds no space) is used as-is; an absent name
falls back to the placeholder `Resume` (which the same heuristic leaves
unchanged); the final filename is the base suffixed with the generation
timestamp. -/
theorem C9_base_filename :
    (∀ n : String, 2 ≤ (pySplitWs n).length →
      baseFilename n = (pySplitWs n).headD "" ++ "_" ++ (pySplitWs n).getLastD "") ∧
    (∀ n : String, (pySplitWs n).length = 1 → ' ' ∉ n.data → baseFilename n = n) ∧
    (baseFilename ((none : Option String).getD "Resume") = "Resume") ∧
    (∀ base ts : String, mkFilename base ts = base ++ "_" ++ ts) := by
  refine ⟨?_, ?_, by decide, fun _ _ => rfl⟩
  · intro n h2
    unfold baseFilename
    rw [if_pos h2]
  · intro n h1 hs
    unfold baseFilename
    rw [if_neg (by omega)]
    have hne : n ≠ "" := by
      intro h
      subst h
      exact absurd h1 (by decide)
    rw [if_pos hne]
    exact pyReplaceSpace_id n hs

/-- C9 witness: `Jordan Lee` gives base `Jordan_Lee`, `Jordan` gives base
`Jordan` (Scenario 6). -/
theorem C9_base_filename_witness :
    baseFilename "Jordan Lee" = "Jordan_Lee" ∧ baseFilename "Jordan" = "Jordan" := by
  constructor
  · rw [C9_base_filename.1 "Jordan Lee" (by decide)]
    decide
  · exact C9_base_filename.2.1 "Jordan" (by decide) (by decide)

/-- C10: with the Order sheet present, the section order is exactly the
scan of rows 2-49 of columns C/D - stop at the first blank name, keep the
names whose inclusion flag normalizes to Yes, in row order - so an empty
or all-excluded Order sheet yields the empty order, the build loop over an
empty order appends no section, and the hardcoded fallback is produced
only by an absent Order sheet. -/
theorem C10_section_order (wb : Workbook) (ws : Sheet) (h : wb "Order" = some ws) :
    read_section_order wb =
      ((orderRows.map (fun r => (safe_str (ws.cell r 3), default_include (ws.cell r 4)))).takeWhile
          (fun p => p.1 != "")).filterMap
        (fun p => if p.2 = "Yes" then some p.1 else none) ∧
    (∀ (d : StyleDefaults) (data : PreData), read_section_order wb = [] →
      buildSections wb d data (read_section_order wb) = Except.ok []) ∧
    (∀ wb2 : Workbook, wb2 "Order" = none → read_section_order wb2 = fallbackOrder) := by
  refine ⟨?_, ?_, ?_⟩
  · unfold read_section_order
    rw [h]
    exact scanOrder_eq ws orderRows
  · intro d data h2
    rw [h2]
    rfl
  · intro wb2 h2
    unfold read_section_order
    rw [h2]

/-- C10 witness: a present Order sheet whose single named row is excluded
yields the empty section order, not the fallback. -/
theorem C10_section_order_witness :
    read_section_order wbOrderPresent =
      ((orderRows.map (fun r =>
          (safe_str (orderSheetW.cell r 3), default_include (orderSheetW.cell r 4)))).takeWhile
          (fun p => p.1 != "")).filterMap
        (fun p => if p.2 = "Yes" then some p.1 else none) ∧
    read_section_order wbOrderPresent = [] ∧
    read_section_order wbOrderPresent ≠ fallbackOrder :=
  ⟨(C10_section_order wbOrderPresent orderSheetW rfl).1, by decide, by decide⟩

/-- C1 counterexample: a workbook holding Contact_Info, Work_Roles and
Work_Experience but no Education sheet - per the claim, an optional sheet -
makes generation fail instead of succeeding with an empty section, because
`create_resume_from_file` evaluates `wb['Education']` unconditionally. -/
theorem C1_counterexample :
    wbNoEdu "Education" = none ∧
    (wbNoEdu "Contact_Info").isSome = true ∧
    (wbNoEdu "Work_Roles").isSome = true ∧
    (wbNoEdu "Work_Experience").isSome = true ∧
    (createResumeFromFile wbNoEdu "out" false true none
        ConvOutcome.finished "2024-01-01_000000").success = false :=
  ⟨rfl, rfl, rfl, rfl, by decide⟩

/-- C1 (amended): generation succeeds when Contact_Info, Work_Roles and
Education are present, Work_Experience is present whenever Work_Roles is in
the section order, and Skills is present whenever Skills is in the section
order; an absent sheet among the remaining optional ones yields empty
content for its section (empty bullet list, absent summary). -/
theorem C1_amended (wb : Workbook) (dir : String) (gp gd : Bool) (key : Option String)
    (conv : ConvOutcome) (ts : String)
    (hc : (wb "Contact_Info").isSome = true) (hw : (wb "Work_Roles").isSome = true)
    (he : (wb "Education").isSome = true)
    (hwe : "Work_Roles" ∈ read_section_order wb → (wb "Work_Experience").isSome = true)
    (hsk : "Skills" ∈ read_section_order wb → (wb "Skills").isSome = true) :
    (createResumeFromFile wb dir gp gd key conv ts).success = true ∧
    (∀ sheet, wb sheet = none → optionalBullets wb sheet = []) ∧
    (wb "Summary" = none → summaryData wb = none) := by
  refine ⟨?_, ?_, ?_⟩
  · obtain ⟨data, doc, hbody⟩ := createBody_ok wb dir gp gd key conv ts hc hw he hwe hsk
    unfold createResumeFromFile
    rw [hbody]
    rfl
  · intro sheet hnone
    unfold optionalBullets
    rw [hnone]
  · intro hnone
    unfold summaryData
    rw [hnone]

/-- C1 witness: with the five accessed sheets present and every bullet
sheet absent, generation succeeds and the absent Highlights sheet yields an
empty bullet list. -/
theorem C1_amended_witness :
    (createResumeFromFile wbFull "out" false true none
        ConvOutcome.finished "2024-01-01_000000").success = true ∧
    optionalBullets wbFull "Highlights" = [] := by
  have h := C1_amended wbFull "out" false true none ConvOutcome.finished "2024-01-01_000000"
    rfl rfl rfl (fun _ => rfl) (fun _ => rfl)
  exact ⟨h.1, h.2.1 "Highlights" rfl⟩

/-- C8: with PDF requested and the conversion credential unset, generation
still reports success, the PDF path is null, the DOCX path is present
exactly when DOCX was also requested, and the document is written because
an output format was requested. -/
theorem C8_pdf_degrade (wb : Workbook) (dir : String) (gd : Bool)
    (conv : ConvOutcome) (ts : String)
    (hc : (wb "Contact_Info").isSome = true) (hw : (wb "Work_Roles").isSome = true)
    (he : (wb "Education").isSome = true)
    (hwe : "Work_Roles" ∈ read_section_order wb → (wb "Work_Experience").isSome = true)
    (hsk : "Skills" ∈ read_section_order wb → (wb "Skills").isSome = true) :
    (createResumeFromFile wb dir true gd none conv ts).success = true ∧
    (createResumeFromFile wb dir true gd none conv ts).pdf_path = none ∧
    (createResumeFromFile wb dir true gd none conv ts).docx_path.isSome = gd ∧
    (createResumeFromFile wb dir true gd none conv ts).docxWritten = true := by
  obtain ⟨data, doc, hbody⟩ := createBody_ok wb dir true gd none conv ts hc hw he hwe hsk
  unfold createResumeFromFile
  rw [hbody]
  refine ⟨finishResult_success data doc dir true gd none conv ts,
    finishResult_pdf_none data doc dir true gd conv ts,
    finishResult_docx_path data doc dir true gd none conv ts, ?_⟩
  rw [finishResult_docxWritten data doc dir true gd none conv ts]
  exact Bool.or_true gd

/-- C8 witness: PDF and DOCX both requested, credential unset - success,
null PDF path, present DOCX path. -/
theorem C8_pdf_degrade_witness :
    (createResumeFromFile wbFull "out" true true none
        ConvOutcome.finished "2024-01-01_000001").success = true ∧
    (createResumeFromFile wbFull "out" true true none
        ConvOutcome.finished "2024-01-01_000001").pdf_path = none ∧
    (createResumeFromFile wbFull "out" true true none
        ConvOutcome.finished "2024-01-01_000001").docx_path.isSome = true := by
  have h := C8_pdf_degrade wbFull "out" true ConvOutcome.finished "2024-01-01_000001"
    rfl rfl rfl (fun _ => rfl) (fun _ => rfl)
  exact ⟨h.1, h.2.1, h.2.2.1⟩

/-- C2 counterexample: the generic bullet reader stores `- Led team`
verbatim although its first character is a strippable glyph - the
glyph-stripping happens only in the per-company work-experience reader. -/
theorem C2_counterexample :
    read_bullet_section sheetC2 = ["- Led team"] ∧
    strip_bullet_prefix "- Led team" = "Led team" :=
  ⟨by decide, by decide⟩

/-- C2 (amended): only the per-company work-experience extraction strips a
leading glyph before storing; the generic bullet sections store the trimmed
text unmodified.  Only the first character is inspected, and only the
one-character entries `-` and `*` of the glyph list can ever match it - the
other twelve entries are three-character mojibake strings. -/
theorem C2_amended :
    (∀ c : Char, String.mk [c] ∈ bullets ↔ (c = '-' ∨ c = '*')) ∧
    (∀ (s : String) (c : Char) (rest : List Char), (pyStrip s).data = c :: rest →
      String.mk [c] ∈ bullets → strip_bullet_prefix s = pyStrip (String.mk rest)) ∧
    (∀ (s : String) (c : Char) (rest : List Char), (pyStrip s).data = c :: rest →
      String.mk [c] ∉ bullets → strip_bullet_prefix s = pyStrip s) ∧
    (∀ (ws : Sheet) (company : String) (ot : Int × String),
      ot ∈ collectCompanyBullets ws company →
      ∃ r ∈ bulletRows,
        ot = (default_order (ws.cell r 5), strip_bullet_prefix (safe_str (ws.cell r 3)))) ∧
    (∀ (ws : Sheet) (rows : List Nat) (ot : Int × String), ot ∈ collectBullets ws rows →
      ∃ r ∈ rows, ot = (default_order (ws.cell r 4), safe_str (ws.cell r 2))) := by
  refine ⟨charString_mem_bullets, ?_, ?_, collectCompanyBullets_mem, collectBullets_mem⟩
  · intro s c rest hdata hmem
    have hne : s ≠ "" := by
      intro h
      subst h
      exact List.noConfusion hdata
    unfold strip_bullet_prefix
    rw [if_neg hne, hdata]
    dsimp only
    rw [if_pos hmem]
  · intro s c rest hdata hmem
    have hne : s ≠ "" := by
      intro h
      subst h
      exact List.noConfusion hdata
    unfold strip_bullet_prefix
    rw [if_neg hne, hdata]
    dsimp only
    rw [if_neg hmem]

/-- C2 witness: a leading dash is stripped (it is in the glyph list), a
leading ordinary letter is not. -/
theorem C2_amended_witness :
    String.mk ['-'] ∈ bullets ∧
    strip_bullet_prefix "- Led team" = pyStrip (String.mk " Led team".data) ∧
    strip_bullet_prefix "x y" = pyStrip "x y" := by
  have h1 := (C2_amended.1 '-').mpr (Or.inl rfl)
  refine ⟨h1, ?_, ?_⟩
  · exact C2_amended.2.1 "- Led team" '-' " Led team".data (by decide) h1
  · exact C2_amended.2.2.1 "x y" 'x' " y".data (by decide) (by decide)

/-- C3 counterexample: `build_contact_header` on the empty contact mapping
still appends a paragraph (the unconditional name line, with empty text),
so not every builder is a no-op on empty input. -/
theorem C3_counterexample :
    build_contact_header (fun _ => none) embeddedDefaults ≠ [] := by decide

/-- C3 (amended): the summary, bullet-section, work-experience, education
and skills builders all append nothing on empty input; the contact-header
builder instead always appends exactly one paragraph - the name line,
empty-texted when the mapping is empty. -/
theorem C3_amended (d : StyleDefaults) :
    (∀ cn : Option String, build_summary none d cn = []) ∧
    (build_summary (some "") d none = []) ∧
    (∀ title : String, build_bullet_section title [] d = []) ∧
    (∀ (ws : Sheet) (cn : Option String), build_work_experience [] ws d cn = []) ∧
    (∀ cn : Option String, build_education [] d cn = []) ∧
    (∀ (ws : Sheet) (cn : Option String), collectSkillCategories ws = [] →
      build_skills ws d cn = []) ∧
    (build_contact_header (fun _ => none) d =
      [{ runs := [mkRun "" d.nameCredentials], centered := true, isListBullet := false }]) := by
  refine ⟨fun _ => rfl, rfl, fun _ => rfl, fun _ _ => rfl, fun _ => rfl, ?_, rfl⟩
  intro ws cn h
  unfold build_skills
  rw [h]
  rfl

/-- C3 witness: the skills builder on an all-blank sheet and the summary
builder on an absent summary both emit nothing. -/
theorem C3_amended_witness :
    build_skills emptySheet embeddedDefaults none = [] ∧
    build_summary none embeddedDefaults none = [] := by
  have h := C3_amended embeddedDefaults
  exact ⟨h.2.2.2.2.2.1 emptySheet none (by decide), h.1 none⟩

end ResumeSpec
